import Mathlib

/-!
Shallow embedding of `wayland-server/src/sources.rs`: the event-source
lifecycle and dispatch layer (`Source<E>`, `IdleSource`, and the four
dispatch trampolines for FD, timer, signal and idle sources).

Modelling conventions:
* Handler closures are abstracted by their observable behaviour on each
  delivered event: a function `ε → Bool` telling whether the handler
  panics when it receives that event.  The trampolines wrap every handler
  invocation in `std::panic::catch_unwind` and turn an escaped panic into
  `eprintln!` + `libc::abort()`; we model an outcome type distinguishing a
  normal return to the reactor from a fatal process termination carrying
  the logged diagnostic.  The list of events actually handed to the
  handler is recorded in the outcome so that "the handler is invoked
  exactly once with e" is expressible.
* `getsockopt(fd, SocketError)` is an external syscall; its result is an
  explicit input (`Option Int`, `none` = the query itself failed).
* The idle source's `Rc<RefCell<(Box<Implementation>, bool)>>` is modelled
  as an explicit state record carrying the escrowed handler, the
  `dispatched` flag, and the `Rc` strong count, plus two ghost counters
  (number of handler invocations, number of `wl_event_source_remove`
  calls) used to state the trace properties.
-/

namespace WaylandSources

/-- `std::io::Error` values exactly as `sources.rs` constructs them:
either `IoError::from_raw_os_error(code)` from a `getsockopt` result, or
the synthetic `IoError::new(ErrorKind::ConnectionAborted, "")`. -/
inductive IoError : Type
  | fromRawOsError (code : Int)
  | connectionAborted
deriving DecidableEq, Repr

/-- `bitflags! FdInterest`: a bitset with `READ = 0x01`, `WRITE = 0x02`. -/
structure FdInterest : Type where
  bits : Nat
deriving DecidableEq, Repr

/-- `FdInterest::empty()`. -/
def FdInterest.empty : FdInterest := ⟨0⟩

/-- `FdInterest::READ`. -/
def FdInterest.READ : FdInterest := ⟨0x01⟩

/-- `FdInterest::WRITE`. -/
def FdInterest.WRITE : FdInterest := ⟨0x02⟩

/-- The `|` operator of `bitflags`: bitwise or of the two bitsets. -/
def FdInterest.union (a b : FdInterest) : FdInterest := ⟨a.bits ||| b.bits⟩

/-- The `contains` test of `bitflags`: every bit of `b` is set in `a`. -/
def FdInterest.contains (a b : FdInterest) : Prop := a.bits &&& b.bits = b.bits

instance (a b : FdInterest) : Decidable (a.contains b) := by
  unfold FdInterest.contains; infer_instance

/-- `enum FdEvent` from `sources.rs`. -/
inductive FdEvent : Type
  | Ready (fd : Int) (mask : FdInterest)
  | Error (fd : Int) (error : IoError)
deriving DecidableEq, Repr

/-- `struct TimerEvent;` — a unit marker with no payload. -/
inductive TimerEvent : Type
  | mk
deriving DecidableEq, Repr

/-- The signals of `nix::sys::signal::Signal` on Linux, numbers 1–31.
`SIGPOLL` is the POSIX name of the signal `nix` calls `SIGIO` (29). -/
inductive Signal : Type
  | SIGHUP | SIGINT | SIGQUIT | SIGILL | SIGTRAP | SIGABRT | SIGBUS
  | SIGFPE | SIGKILL | SIGUSR1 | SIGSEGV | SIGUSR2 | SIGPIPE | SIGALRM
  | SIGTERM | SIGSTKFLT | SIGCHLD | SIGCONT | SIGSTOP | SIGTSTP | SIGTTIN
  | SIGTTOU | SIGURG | SIGXCPU | SIGXFSZ | SIGVTALRM | SIGPROF | SIGWINCH
  | SIGPOLL | SIGPWR | SIGSYS
deriving DecidableEq, Repr

/-- `nix::sys::signal::Signal::from_c_int` on Linux: the raw numbers 1–31
resolve to the corresponding signal, every other number is an error. -/
def signalFromCInt (n : Int) : Option Signal :=
  match n with
  | 1 => some Signal.SIGHUP
  | 2 => some Signal.SIGINT
  | 3 => some Signal.SIGQUIT
  | 4 => some Signal.SIGILL
  | 5 => some Signal.SIGTRAP
  | 6 => some Signal.SIGABRT
  | 7 => some Signal.SIGBUS
  | 8 => some Signal.SIGFPE
  | 9 => some Signal.SIGKILL
  | 10 => some Signal.SIGUSR1
  | 11 => some Signal.SIGSEGV
  | 12 => some Signal.SIGUSR2
  | 13 => some Signal.SIGPIPE
  | 14 => some Signal.SIGALRM
  | 15 => some Signal.SIGTERM
  | 16 => some Signal.SIGSTKFLT
  | 17 => some Signal.SIGCHLD
  | 18 => some Signal.SIGCONT
  | 19 => some Signal.SIGSTOP
  | 20 => some Signal.SIGTSTP
  | 21 => some Signal.SIGTTIN
  | 22 => some Signal.SIGTTOU
  | 23 => some Signal.SIGURG
  | 24 => some Signal.SIGXCPU
  | 25 => some Signal.SIGXFSZ
  | 26 => some Signal.SIGVTALRM
  | 27 => some Signal.SIGPROF
  | 28 => some Signal.SIGWINCH
  | 29 => some Signal.SIGPOLL
  | 30 => some Signal.SIGPWR
  | 31 => some Signal.SIGSYS
  | _ => none

/-- `struct SignalEvent(Signal)`: wraps the resolved signal identity. -/
structure SignalEvent : Type where
  sig : Signal
deriving DecidableEq, Repr

/-- Outcome of one trampoline invocation, as seen by the reactor.
`ok ret delivered`: the extern function returned `ret` normally, after the
escrowed handler was invoked once with each event in `delivered`.
`fatal diag delivered`: the process was terminated (`libc::abort()`) after
logging `diag`; `delivered` again lists the handler invocations that were
started.  There is no constructor for unwinding out of the trampoline:
every handler call sits inside `catch_unwind`, whose `Err` arm aborts. -/
inductive DispatchOutcome (ε : Type) : Type
  | ok (ret : Int) (delivered : List ε)
  | fatal (diag : String) (delivered : List ε)
deriving DecidableEq

/-- The diagnostic of `sources.rs` line 96 (format argument elided):
`[wayland-server error] Error while retrieving error code on socket _, aborting.` -/
def sockoptFailDiag : String :=
  "[wayland-server error] Error while retrieving error code on socket, aborting."

/-- The diagnostic of `sources.rs` line 134 (format argument elided):
`[wayland-server error] A handler for fd _ event source panicked, aborting.` -/
def fdPanicDiag : String :=
  "[wayland-server error] A handler for fd event source panicked, aborting."

/-- The diagnostic of `sources.rs` lines 178, 211 and 278.  The signal and
idle dispatchers reuse the timer wording verbatim in the source. -/
def timerPanicDiag : String :=
  "[wayland-server error] A handler for a timer event source panicked, aborting."

/-- The diagnostic of `sources.rs` line 198 (format argument elided):
`[wayland-server error] Unknown signal in signal event source: _, aborting.` -/
def unknownSignalDiag : String :=
  "[wayland-server error] Unknown signal in signal event source: aborting."

/-- One guarded handler invocation: `implem.receive(e, ())` inside
`catch_unwind`, with the `Err` arm logging `diag` and aborting. -/
def deliver {ε : Type} (panics : ε → Bool) (diag : String) (e : ε) :
    DispatchOutcome ε :=
  if panics e then DispatchOutcome.fatal diag [e]
  else DispatchOutcome.ok 0 [e]

/-- The interest-bit computation of the readiness branch of
`event_source_fd_dispatcher`: start from `FdInterest::empty()`, or in
`WRITE` when the writable bit (0x02) is set, then or in `READ` when the
readable bit (0x01) is set. -/
def fdReadyBits (mask : Nat) : FdInterest :=
  let bits0 := FdInterest.empty
  let bits1 := if mask &&& 0x02 > 0 then bits0.union FdInterest.WRITE else bits0
  if mask &&& 0x01 > 0 then bits1.union FdInterest.READ else bits1

/-- `event_source_fd_dispatcher(fd, mask, data)`.  `mask` is the raw
readiness bitmask (0x08 error, 0x04 hangup, 0x02 writable, 0x01
readable); `sockErr` is the result of `getsockopt(fd, SocketError)`
(`none` = the query failed, which the code treats as fatal); `panics`
abstracts the escrowed handler. -/
def event_source_fd_dispatcher (fd : Int) (mask : Nat) (sockErr : Option Int)
    (panics : FdEvent → Bool) : DispatchOutcome FdEvent :=
  if mask &&& 0x08 > 0 then
    match sockErr with
    | some err =>
        deliver panics fdPanicDiag
          (FdEvent.Error fd (IoError.fromRawOsError err))
    | none => DispatchOutcome.fatal sockoptFailDiag []
  else if mask &&& 0x04 > 0 then
    deliver panics fdPanicDiag (FdEvent.Error fd IoError.connectionAborted)
  else
    deliver panics fdPanicDiag (FdEvent.Ready fd (fdReadyBits mask))

/-- `event_source_timer_dispatcher(data)`: no payload, one guarded
invocation with the unit `TimerEvent`. -/
def event_source_timer_dispatcher (panics : TimerEvent → Bool) :
    DispatchOutcome TimerEvent :=
  deliver panics timerPanicDiag TimerEvent.mk

/-- `event_source_signal_dispatcher(signal, data)`: resolve the raw
number via `Signal::from_c_int`; failure logs and aborts before any
handler invocation, success delivers `SignalEvent(sig)` once. -/
def event_source_signal_dispatcher (signal : Int)
    (panics : SignalEvent → Bool) : DispatchOutcome SignalEvent :=
  match signalFromCInt signal with
  | some sig => deliver panics timerPanicDiag (SignalEvent.mk sig)
  | none => DispatchOutcome.fatal unknownSignalDiag []

/-- The effects this layer requests from the reactor collaborator.
`unregister t` is `ffi_dispatch!(…, wl_event_source_remove, t)`. -/
inductive Effect : Type
  | unregister (token : Nat)
deriving DecidableEq, Repr

/-- `struct Source<E>`: a registration token (`ptr`) plus exclusive
ownership of the escrowed handler (`data`, the leaked
`Box<Box<Implementation<(), E>>>`).  The handler is abstracted by an
arbitrary value of type `α`; the trampolines above describe what the
reactor does with the escrow's address. -/
structure Source (α : Type) : Type where
  ptr : Nat
  data : α

/-- `Source::make(ptr, data)`. -/
def Source.make {α : Type} (ptr : Nat) (data : α) : Source α :=
  { ptr := ptr, data := data }

/-- `Source::remove(self)`: calls `wl_event_source_remove` on the token,
then `Box::from_raw`s the escrow and returns the handler by value.  The
first component is the list of collaborator calls made. -/
def Source.remove {α : Type} (s : Source α) : List Effect × α :=
  ([Effect.unregister s.ptr], s.data)

/-- Dropping a `Source<E>`: the struct has no `Drop` impl and its fields
(`PhantomData` and two raw pointers) have no drop glue, so no collaborator
call is made and the escrow is simply leaked. -/
def Source.dropHandle {α : Type} (_s : Source α) : List Effect := []

/-- The shared idle state `Rc<RefCell<(Box<Implementation<(), ()>>, bool)>>`
together with the ghost trace counters.  `strong` is the `Rc` strong
count; `handlerCalls` counts invocations of the escrowed handler;
`unregisterCalls` counts `wl_event_source_remove` calls for this source. -/
structure IdleState (α : Type) : Type where
  handler : α
  dispatched : Bool
  strong : Nat
  handlerCalls : Nat
  unregisterCalls : Nat
deriving DecidableEq, Repr

/-- The shared state right after `IdleSource::make`: `dispatched` is
false and the strong count is 2 — the caller's `IdleSource` handle holds
one reference and the registration side holds one leaked reference (the
raw pointer handed to the reactor, reconstructed with `Rc::from_raw`
either by the dispatcher on firing or by `remove()` while pending). -/
def IdleSource.make {α : Type} (h : α) : IdleState α :=
  { handler := h, dispatched := false, strong := 2
    handlerCalls := 0, unregisterCalls := 0 }

/-- Result of `IdleSource::remove(self)`: either the reclaimed handler
with the final state, or the `panic!("Idle Rc was not singly owned.")`
raised when `Rc::try_unwrap` finds another surviving owner. -/
inductive RemoveResult (α : Type) : Type
  | ok (handler : α) (final : IdleState α)
  | fatal (diag : String)
deriving DecidableEq, Repr

/-- `IdleSource::remove(self)`: read the `dispatched` flag; if the source
has not fired, call `wl_event_source_remove` and drop the reconstructed
(`Rc::from_raw`) registration-side reference; then `Rc::try_unwrap` the
handle's reference — success moves the handler out (the container is
deallocated, strong count 0), failure is the fatal `panic!`. -/
def IdleSource.remove {α : Type} (s : IdleState α) : RemoveResult α :=
  let s1 :=
    if !s.dispatched then
      { s with unregisterCalls := s.unregisterCalls + 1, strong := s.strong - 1 }
    else s
  if s1.strong = 1 then
    RemoveResult.ok s1.handler { s1 with strong := 0 }
  else
    RemoveResult.fatal "Idle Rc was not singly owned."

/-- `event_source_idle_dispatcher(data)`: invoke the handler (guarded by
`catch_unwind`); on normal return, reconstruct and drop the registration
side's `Rc` reference (strong count − 1) and set the `dispatched` flag;
on panic, log and abort.  The source contains no check of the
`dispatched` flag before invoking the handler. -/
def event_source_idle_dispatcher {α : Type} (s : IdleState α)
    (panics : Bool) : DispatchOutcome Unit × IdleState α :=
  let invoked := { s with handlerCalls := s.handlerCalls + 1 }
  if panics then
    (DispatchOutcome.fatal timerPanicDiag [()], invoked)
  else
    (DispatchOutcome.ok 0 [()],
      { invoked with dispatched := true, strong := invoked.strong - 1 })

/-- Dropping an `IdleSource` handle: no `Drop` impl on the struct itself,
but the `data: Rc<…>` field's drop glue runs and releases the handle's
strong reference.  No collaborator call is made and the `dispatched` flag
is untouched. -/
def IdleSource.dropHandle {α : Type} (s : IdleState α) : IdleState α :=
  { s with strong := s.strong - 1 }

/-- The escrowed handler's allocation is freed exactly when the `Rc`
strong count reaches 0. -/
def IdleState.handlerFreed {α : Type} (s : IdleState α) : Prop :=
  s.strong = 0

/-- C1: `IdleSource::remove` is dispatched-aware.  On the state produced
by registration (trampoline not yet fired, `dispatched = false`),
`remove()` calls the collaborator's unregister primitive exactly once and
returns the original handler; on the state produced by exactly one firing
of the trampoline (`dispatched = true`), `remove()` calls it zero times
and still returns the original handler. -/
theorem idle_remove_dispatched_aware (α : Type) (h : α) :
    (∃ f, IdleSource.remove (IdleSource.make h) = RemoveResult.ok h f ∧
        f.unregisterCalls = 1) ∧
    (∃ f, IdleSource.remove
          ((event_source_idle_dispatcher (IdleSource.make h) false).2)
        = RemoveResult.ok h f ∧ f.unregisterCalls = 0) := by
  exact ⟨⟨_, rfl, rfl⟩, ⟨_, rfl, rfl⟩⟩

/-- C2 counterexample: the idle dispatch trampoline contains no guard on
the `dispatched` flag, so if the underlying token is (incorrectly)
signaled a second time after the first firing, the trampoline invokes the
handler a second time: after two trampoline invocations on a freshly
registered idle source the handler has been invoked twice, not at most
once. -/
theorem idle_double_signal_counterexample :
    ((event_source_idle_dispatcher
        ((event_source_idle_dispatcher (IdleSource.make (0 : Nat)) false).2)
        false).2).handlerCalls = 2 := by
  rfl

/-- C2 (amended): each invocation of the idle dispatch trampoline invokes
the handler exactly once (and, on normal return, marks the shared
`dispatched` flag); the at-most-once-per-registration guarantee comes
from the reactor invoking the idle trampoline at most once per
registration, not from any guard inside the trampoline. -/
theorem idle_dispatch_once_per_invocation (α : Type) (s : IdleState α) :
    (∀ p : Bool,
        ((event_source_idle_dispatcher s p).2).handlerCalls
          = s.handlerCalls + 1) ∧
    ((event_source_idle_dispatcher s false).2).dispatched = true := by
  constructor
  · intro p
    cases p <;> rfl
  · rfl

/-- C4: `Source::remove` is a round-trip with `Source::make`: it performs
exactly one `unregister` collaborator call, on the registration token,
and returns exactly the handler that was escrowed at `make`.  (That a
second removal is impossible is Rust's move semantics: `remove(self)`
consumes the non-`Copy` handle; the embedding states the dynamic half.) -/
theorem source_remove_roundtrip (α : Type) (t : Nat) (h : α) :
    Source.remove (Source.make t h) = ([Effect.unregister t], h) ∧
    (Source.remove (Source.make t h)).1.count (Effect.unregister t) = 1 := by
  exact ⟨rfl, by simp [Source.remove, Source.make]⟩

/-- C6: when `IdleSource::remove` unwraps the shared container it must
hold the sole surviving reference.  If after the conditional release of
the registration side's reference any other owner survives (the strong
count at `Rc::try_unwrap` time is not 1), `remove` is the fatal
`panic!("Idle Rc was not singly owned.")` — a diagnostic, not a
recoverable result carrying the handler. -/
theorem idle_remove_not_sole_owner_fatal (α : Type) (s : IdleState α)
    (hown : (if !s.dispatched then s.strong - 1 else s.strong) ≠ 1) :
    IdleSource.remove s
      = RemoveResult.fatal "Idle Rc was not singly owned." := by
  unfold IdleSource.remove
  cases hd : s.dispatched <;> simp [hd] at hown ⊢ <;> simp [hown]

/-- Witness for C6: a pending idle state whose shared container still has
three owners; after releasing the registration side's share two owners
survive, and `remove` panics instead of returning the handler. -/
theorem idle_remove_not_sole_owner_fatal_witness :
    ((if !(false : Bool) then 3 - 1 else 3 : Nat) ≠ 1) ∧
    IdleSource.remove
        { handler := (0 : Nat), dispatched := false, strong := 3
          handlerCalls := 0, unregisterCalls := 0 }
      = RemoveResult.fatal "Idle Rc was not singly owned." := by
  exact ⟨by decide,
    idle_remove_not_sole_owner_fatal Nat
      { handler := 0, dispatched := false, strong := 3
        handlerCalls := 0, unregisterCalls := 0 } (by decide)⟩

/-- C10 counterexample: dropping an `IdleSource` handle is not free of
effect on the escrowed handler.  The struct has no `Drop` impl, but its
`Rc` field's drop glue releases the handle's strong reference; on a
source that has already fired (strong count 1) this takes the count to 0,
so the shared container — and with it the escrowed handler — is freed,
contradicting "the escrowed handler is never freed". -/
theorem idle_drop_after_fire_frees_handler :
    (IdleSource.dropHandle
        ((event_source_idle_dispatcher (IdleSource.make (0 : Nat)) false).2)
      ).handlerFreed := by
  rfl

/-- C10 (amended): dropping a `Source<E>` handle performs no collaborator
call and leaks the escrowed handler (no drop glue at all); dropping an
`IdleSource` handle performs no collaborator call, does not suppress
dispatch (the `dispatched` flag is untouched and a later trampoline
invocation still reaches the handler), but it does release the handle's
strong reference on the shared container, so the escrowed handler is
freed once the registration side's reference is also gone (immediately,
if the source has already fired) rather than leaked. -/
theorem drop_handle_no_registration_effect (α : Type) (t : Nat) (h : α)
    (s : IdleState α) :
    Source.dropHandle (Source.make t h) = ([] : List Effect) ∧
    (IdleSource.dropHandle s).unregisterCalls = s.unregisterCalls ∧
    (IdleSource.dropHandle s).dispatched = s.dispatched ∧
    (IdleSource.dropHandle s).handler = s.handler ∧
    (IdleSource.dropHandle s).strong = s.strong - 1 ∧
    ((event_source_idle_dispatcher (IdleSource.dropHandle s) false).2
      ).handlerCalls = s.handlerCalls + 1 := by
  exact ⟨rfl, rfl, rfl, rfl, rfl, rfl⟩

/-- C3: the FD trampoline decodes with priority error > hangup >
readiness, first match wins.  Whenever the error bit (0x08) is set the
handler receives `FdEvent::Error` built from the `getsockopt` result,
regardless of the other bits; the hangup branch requires the error bit
clear; the readiness branch requires both the error and hangup bits
clear. -/
theorem fd_decode_priority (fd : Int) (mask : Nat) (err : Int)
    (p : FdEvent → Bool) (hp : ∀ e, p e = false) :
    (mask &&& 0x08 > 0 →
      event_source_fd_dispatcher fd mask (some err) p
        = DispatchOutcome.ok 0
            [FdEvent.Error fd (IoError.fromRawOsError err)]) ∧
    (mask &&& 0x08 = 0 → mask &&& 0x04 > 0 →
      event_source_fd_dispatcher fd mask (some err) p
        = DispatchOutcome.ok 0
            [FdEvent.Error fd IoError.connectionAborted]) ∧
    (mask &&& 0x08 = 0 → mask &&& 0x04 = 0 →
      event_source_fd_dispatcher fd mask (some err) p
        = DispatchOutcome.ok 0 [FdEvent.Ready fd (fdReadyBits mask)]) := by
  refine ⟨?_, ?_, ?_⟩
  · intro h8
    simp [event_source_fd_dispatcher, deliver, hp, h8]
  · intro h8 h4
    simp [event_source_fd_dispatcher, deliver, hp, h8, h4]
  · intro h8 h4
    simp [event_source_fd_dispatcher, deliver, hp, h8, h4]

/-- Witness for C3: mask 0x0F (all four bits set) still yields the error
event; mask 0x05 (hangup + readable) yields the connection-aborted error;
mask 0x03 yields the readiness event. -/
theorem fd_decode_priority_witness :
    (∀ e : FdEvent, (fun _ : FdEvent => false) e = false) ∧
    ((0x0F : Nat) &&& 0x08 > 0) ∧
    event_source_fd_dispatcher 3 0x0F (some 11) (fun _ => false)
      = DispatchOutcome.ok 0 [FdEvent.Error 3 (IoError.fromRawOsError 11)] ∧
    event_source_fd_dispatcher 3 0x05 (some 11) (fun _ => false)
      = DispatchOutcome.ok 0 [FdEvent.Error 3 IoError.connectionAborted] ∧
    event_source_fd_dispatcher 3 0x03 (some 11) (fun _ => false)
      = DispatchOutcome.ok 0 [FdEvent.Ready 3 (fdReadyBits 0x03)] := by
  refine ⟨fun _ => rfl, by decide,
    (fd_decode_priority 3 0x0F 11 (fun _ => false) (fun _ => rfl)).1 (by decide),
    (fd_decode_priority 3 0x05 11 (fun _ => false) (fun _ => rfl)).2.1
      (by decide) (by decide),
    (fd_decode_priority 3 0x03 11 (fun _ => false) (fun _ => rfl)).2.2
      (by decide) (by decide)⟩

/-- Case analysis of `fdReadyBits`: the four possible interest bitsets,
by the writable (0x02) and readable (0x01) input bits. -/
theorem fdReadyBits_eq (mask : Nat) :
    fdReadyBits mask
      = if mask &&& 0x02 > 0 then
          (if mask &&& 0x01 > 0 then FdInterest.mk 3 else FdInterest.mk 2)
        else
          (if mask &&& 0x01 > 0 then FdInterest.mk 1 else FdInterest.mk 0)
    := by
  simp only [fdReadyBits]
  split_ifs <;> rfl

/-- C7: in the readiness branch (error and hangup bits clear) the emitted
event is `Ready(fd, b)` where `b` contains `READ` iff input bit 0x01 is
set and `WRITE` iff input bit 0x02 is set, the two independently, and no
bit outside 0x03 is ever included. -/
theorem fd_ready_mask_bits (fd : Int) (mask : Nat) (se : Option Int)
    (p : FdEvent → Bool) (h8 : mask &&& 0x08 = 0) (h4 : mask &&& 0x04 = 0)
    (hp : ∀ e, p e = false) :
    ∃ b : FdInterest,
      event_source_fd_dispatcher fd mask se p
        = DispatchOutcome.ok 0 [FdEvent.Ready fd b] ∧
      (b.contains FdInterest.READ ↔ mask &&& 0x01 > 0) ∧
      (b.contains FdInterest.WRITE ↔ mask &&& 0x02 > 0) ∧
      b.bits &&& 0x03 = b.bits := by
  refine ⟨fdReadyBits mask, ?_, ?_, ?_, ?_⟩
  · simp [event_source_fd_dispatcher, deliver, hp, h8, h4]
  · rw [fdReadyBits_eq]
    by_cases h2 : mask &&& 0x02 > 0
    · by_cases h1 : mask &&& 0x01 > 0
      · rw [if_pos h2, if_pos h1]; exact iff_of_true (by decide) h1
      · rw [if_pos h2, if_neg h1]; exact iff_of_false (by decide) h1
    · by_cases h1 : mask &&& 0x01 > 0
      · rw [if_neg h2, if_pos h1]; exact iff_of_true (by decide) h1
      · rw [if_neg h2, if_neg h1]; exact iff_of_false (by decide) h1
  · rw [fdReadyBits_eq]
    by_cases h2 : mask &&& 0x02 > 0
    · by_cases h1 : mask &&& 0x01 > 0
      · rw [if_pos h2, if_pos h1]; exact iff_of_true (by decide) h2
      · rw [if_pos h2, if_neg h1]; exact iff_of_true (by decide) h2
    · by_cases h1 : mask &&& 0x01 > 0
      · rw [if_neg h2, if_pos h1]; exact iff_of_false (by decide) h2
      · rw [if_neg h2, if_neg h1]; exact iff_of_false (by decide) h2
  · rw [fdReadyBits_eq]
    by_cases h2 : mask &&& 0x02 > 0
    · by_cases h1 : mask &&& 0x01 > 0
      · rw [if_pos h2, if_pos h1]; decide
      · rw [if_pos h2, if_neg h1]; decide
    · by_cases h1 : mask &&& 0x01 > 0
      · rw [if_neg h2, if_pos h1]; decide
      · rw [if_neg h2, if_neg h1]; decide

/-- Witness for C7: mask 0x01 (readable only). -/
theorem fd_ready_mask_bits_witness :
    ((0x01 : Nat) &&& 0x08 = 0) ∧ ((0x01 : Nat) &&& 0x04 = 0) ∧
    (∀ e : FdEvent, (fun _ : FdEvent => false) e = false) ∧
    ∃ b : FdInterest,
      event_source_fd_dispatcher 5 0x01 none (fun _ => false)
        = DispatchOutcome.ok 0 [FdEvent.Ready 5 b] ∧
      (b.contains FdInterest.READ ↔ (0x01 : Nat) &&& 0x01 > 0) ∧
      (b.contains FdInterest.WRITE ↔ (0x01 : Nat) &&& 0x02 > 0) ∧
      b.bits &&& 0x03 = b.bits := by
  exact ⟨by decide, by decide, fun _ => rfl,
    fd_ready_mask_bits 5 0x01 none (fun _ => false) (by decide) (by decide)
      (fun _ => rfl)⟩

/-- C8: with the hangup bit (0x04) set and the error bit (0x08) clear,
the FD trampoline's outcome does not depend on the `getsockopt` input at
all (the error value is synthetic, not derived from a syscall), and the
handler receives `Error(fd, ConnectionAborted)`. -/
theorem fd_hangup_synthetic_error (fd : Int) (mask : Nat)
    (se se2 : Option Int) (p : FdEvent → Bool)
    (h8 : mask &&& 0x08 = 0) (h4 : mask &&& 0x04 > 0) :
    event_source_fd_dispatcher fd mask se p
      = event_source_fd_dispatcher fd mask se2 p ∧
    (p (FdEvent.Error fd IoError.connectionAborted) = false →
      event_source_fd_dispatcher fd mask se p
        = DispatchOutcome.ok 0
            [FdEvent.Error fd IoError.connectionAborted]) := by
  constructor
  · simp [event_source_fd_dispatcher, h8, h4]
  · intro hnp
    simp [event_source_fd_dispatcher, deliver, h8, h4, hnp]

/-- Witness for C8: mask 0x07 (hangup + writable + readable, error bit
clear), compared across a successful and a failed `getsockopt` input. -/
theorem fd_hangup_synthetic_error_witness :
    ((0x07 : Nat) &&& 0x08 = 0) ∧ ((0x07 : Nat) &&& 0x04 > 0) ∧
    event_source_fd_dispatcher 4 0x07 (some 99) (fun _ => false)
      = event_source_fd_dispatcher 4 0x07 none (fun _ => false) ∧
    event_source_fd_dispatcher 4 0x07 (some 99) (fun _ => false)
      = DispatchOutcome.ok 0
          [FdEvent.Error 4 IoError.connectionAborted] := by
  refine ⟨by decide, by decide,
    (fd_hangup_synthetic_error 4 0x07 (some 99) none (fun _ => false)
      (by decide) (by decide)).1,
    (fd_hangup_synthetic_error 4 0x07 (some 99) none (fun _ => false)
      (by decide) (by decide)).2 rfl⟩

/-- C9: the signal trampoline resolves the raw signal number through
`Signal::from_c_int`.  On success it invokes the handler exactly once
with the resolved identity wrapped in `SignalEvent`; on failure it logs
the unknown-signal diagnostic and aborts, invoking the handler zero
times. -/
theorem signal_dispatch_resolution (n : Int) (p : SignalEvent → Bool) :
    (∀ sig : Signal, signalFromCInt n = some sig →
        p (SignalEvent.mk sig) = false →
        event_source_signal_dispatcher n p
          = DispatchOutcome.ok 0 [SignalEvent.mk sig]) ∧
    (signalFromCInt n = none →
        event_source_signal_dispatcher n p
          = DispatchOutcome.fatal unknownSignalDiag []) := by
  constructor
  · intro sig hres hnp
    simp [event_source_signal_dispatcher, hres, deliver, hnp]
  · intro hres
    simp [event_source_signal_dispatcher, hres]

/-- Witness for C9: raw number 2 resolves to SIGINT and is delivered
once; raw number 0 does not resolve and is fatal with no delivery. -/
theorem signal_dispatch_resolution_witness :
    (signalFromCInt 2 = some Signal.SIGINT) ∧
    ((fun _ : SignalEvent => false) (SignalEvent.mk Signal.SIGINT)
      = false) ∧
    event_source_signal_dispatcher 2 (fun _ => false)
      = DispatchOutcome.ok 0 [SignalEvent.mk Signal.SIGINT] ∧
    (signalFromCInt 0 = none) ∧
    event_source_signal_dispatcher 0 (fun _ => false)
      = DispatchOutcome.fatal unknownSignalDiag [] := by
  refine ⟨rfl, rfl,
    (signal_dispatch_resolution 2 (fun _ => false)).1 Signal.SIGINT rfl rfl,
    rfl, (signal_dispatch_resolution 0 (fun _ => false)).2 rfl⟩

/-- C5: for each of the four trampolines, a panic escaping the handler is
caught at the trampoline boundary and turned into a logged diagnostic and
an immediate process termination; the outcome type has no constructor for
unwinding past the trampoline, and the fatal outcome carries the logged
message from the source. -/
theorem trampoline_panic_fatal :
    (∀ (fd : Int) (mask : Nat) (err : Int) (p : FdEvent → Bool),
        (∀ e, p e = true) →
        ∃ e, event_source_fd_dispatcher fd mask (some err) p
            = DispatchOutcome.fatal fdPanicDiag [e]) ∧
    (∀ p : TimerEvent → Bool, p TimerEvent.mk = true →
        event_source_timer_dispatcher p
          = DispatchOutcome.fatal timerPanicDiag [TimerEvent.mk]) ∧
    (∀ (n : Int) (sig : Signal) (p : SignalEvent → Bool),
        signalFromCInt n = some sig → p (SignalEvent.mk sig) = true →
        event_source_signal_dispatcher n p
          = DispatchOutcome.fatal timerPanicDiag [SignalEvent.mk sig]) ∧
    (∀ (α : Type) (s : IdleState α),
        (event_source_idle_dispatcher s true).1
          = DispatchOutcome.fatal timerPanicDiag [()]) := by
  refine ⟨?_, ?_, ?_, ?_⟩
  · intro fd mask err p hp
    by_cases h8 : mask &&& 0x08 > 0
    · exact ⟨FdEvent.Error fd (IoError.fromRawOsError err),
        by simp [event_source_fd_dispatcher, deliver, hp, h8]⟩
    · by_cases h4 : mask &&& 0x04 > 0
      · exact ⟨FdEvent.Error fd IoError.connectionAborted,
          by simp [event_source_fd_dispatcher, deliver, hp, h8, h4]⟩
      · exact ⟨FdEvent.Ready fd (fdReadyBits mask),
          by simp [event_source_fd_dispatcher, deliver, hp, h8, h4]⟩
  · intro p hp
    simp [event_source_timer_dispatcher, deliver, hp]
  · intro n sig p hres hp
    simp [event_source_signal_dispatcher, hres, deliver, hp]
  · intro α s
    rfl

/-- Witness for C5: an always-panicking handler on each of the four
trampolines at concrete inputs. -/
theorem trampoline_panic_fatal_witness :
    (∃ e, event_source_fd_dispatcher 7 0x01 (some 0) (fun _ => true)
        = DispatchOutcome.fatal fdPanicDiag [e]) ∧
    event_source_timer_dispatcher (fun _ => true)
      = DispatchOutcome.fatal timerPanicDiag [TimerEvent.mk] ∧
    event_source_signal_dispatcher 2 (fun _ => true)
      = DispatchOutcome.fatal timerPanicDiag
          [SignalEvent.mk Signal.SIGINT] ∧
    (event_source_idle_dispatcher (IdleSource.make (0 : Nat)) true).1
      = DispatchOutcome.fatal timerPanicDiag [()] := by
  refine ⟨trampoline_panic_fatal.1 7 0x01 0 (fun _ => true) (fun _ => rfl),
    trampoline_panic_fatal.2.1 (fun _ => true) rfl,
    trampoline_panic_fatal.2.2.1 2 Signal.SIGINT (fun _ => true) rfl rfl,
    trampoline_panic_fatal.2.2.2 Nat (IdleSource.make 0)⟩

end WaylandSources
